import Mathlib

/-!
Verification of `run_agentetic_app.py`, the agentic-application orchestration
script.  The script is pure orchestration: it checks a data file, constructs
two collaborator agents (`FileAccessAgent`, `PythonExecAgent`), seeds context,
runs an interactive question loop, and guarantees cleanup of every
successfully constructed agent on every exit path.

We embed the script as a trace semantics.  An `Env` records the outcome of
every external interaction (module import, file existence, each collaborator
call, the sequence of console reads, cleanup failures).  Running the program
on an `Env` yields the ordered list of observable events (`Ev`) it performs
together with its exit status.  Collaborator calls can succeed, raise an
ordinary exception (Python `Exception`), or raise a keyboard interrupt
(Python `KeyboardInterrupt`, which `except Exception` does NOT catch) —
these three outcomes are the `Outcome` type.
-/

namespace AgenticApp

/-- Outcome of one external (collaborator) call: success with a value,
an ordinary exception, or a keyboard interrupt. -/
inductive Outcome (α : Type) where
  | ok (a : α)
  | exc
  | intr
deriving DecidableEq, Repr

/-- Result of one `input()` call: a line of text, end-of-input (`EOFError`),
or a keyboard interrupt arriving during the read. -/
inductive ReadEv where
  | line (s : String)
  | eof
  | intr
deriving DecidableEq, Repr

/-- Observable events of a run, in program order. -/
inductive Ev where
  | print (s : String)
  | logInfo (s : String)
  | logError (s : String)
  | constructFileAgent
  | constructPythonAgent
  | fileTask (s : String)
  | addContext (s : String)
  | pythonTask (s : String)
  | fileCleanup
  | pythonCleanup
deriving DecidableEq, Repr

/-- How the interactive loop ended: `normal` = `break` taken (farewell
printed), `interrupted` = a `KeyboardInterrupt` escaped a `task` call,
`pending` = the modelled input sequence was exhausted with the loop still
running. -/
inductive LoopExit where
  | normal
  | interrupted
  | pending
deriving DecidableEq, Repr

/-- Process exit status; `pending` when the modelled inputs ran out before
the program finished. -/
inductive Status where
  | exited (code : Nat)
  | pending
deriving DecidableEq, Repr

/-- Signal escaping a region of code: ordinary exception or interrupt. -/
inductive Sig where
  | exc
  | intr
deriving DecidableEq, Repr

/-- Python `str.strip()` on ASCII whitespace, as used at
`input("Your question: ").strip()`. -/
def pyStrip (s : String) : String :=
  ⟨((s.data.dropWhile Char.isWhitespace).reverse.dropWhile Char.isWhitespace).reverse⟩

/-- Python `str.lower()` restricted to ASCII letters (all the comparison
`user_input.lower() == "exit"` needs). -/
def pyLower (s : String) : String :=
  ⟨s.data.map Char.toLower⟩

/-- The guard `user_input.lower() == "exit"` (the input was already
stripped when read). -/
def stopLine (s : String) : Bool :=
  pyLower (pyStrip s) == "exit"

/-- The hard-coded dataset prompt (verbatim from the script). -/
def promptText : String :=
  "Use the file traffic_accidents.csv for your analysis. The column names are:\n\n" ++
  "Variable\tDescription\n" ++
  "accidents\tNumber of recorded accidents, as a positive integer\n" ++
  "traffic_fine_amount\tTraffic fine amount, expressed in thousands of USD\n" ++
  "traffic_density\tTraffic density index, scale from 0 (low) to 10 (high)\n" ++
  "traffic_lights\tProportion of traffic lights in the area (0 to 1)\n" ++
  "pavement_quality\tPavement quality, scale from 0 (very poor) to 5 (excellent)\n" ++
  "urban_area\tUrban area (1) or rural area (0), as an integer\n" ++
  "average_speed\tAverage speed of vehicles in km/h\n" ++
  "rain_intensity\tRain intensity, scale from 0 (no rain) to 3 (heavy rain)\n" ++
  "vehicle_count\tEstimated number of vehicles, in thousands, as an integer\n" ++
  "time_of_day\tTime of day in 24-hour format (0 to 24)"

/-- Relative path of the required data file under the project root. -/
def csvRelPath : String := "resources/data/traffic_accidents.csv"

/-- Prints performed at the top of each loop iteration: the question banner
and the `input()` prompt. -/
def loopHeader : List Ev :=
  [Ev.print "\nType your question related to the data in the file (or type 'exit' to exit):",
   Ev.print "Your question: "]

/-- Events of one question-answering turn on stripped input `q`, given the
outcome of `data_analysis_agent.task(q)`.  On `exc` the per-question handler
logs and prints the generic failure message; on `intr` nothing after the call
runs (the interrupt escapes). -/
def questionEvents (q : String) (res : Outcome String) : List Ev :=
  [Ev.print ("User question: " ++ q),
   Ev.print "Generating dynamic tools and executing code interpreter...",
   Ev.pythonTask q] ++
  match res with
  | Outcome.ok out =>
      [Ev.print "Output:", Ev.print out]
  | Outcome.exc =>
      [Ev.logError "Error during dynamic code generation or execution.",
       Ev.print "An error occurred while processing your request. Please try again."]
  | Outcome.intr => []

/-- Events and exit of the interactive loop (`while True:` at line 89),
reading the `k`-th and later inputs, with `taskOut i` the outcome of the
`task` call of turn `i`. -/
def loop (taskOut : Nat → Outcome String) : Nat → List ReadEv → List Ev × LoopExit
  | _, [] => (loopHeader, LoopExit.pending)
  | _, ReadEv.eof :: _ =>
      (loopHeader ++ [Ev.print "\nExiting the application."], LoopExit.normal)
  | _, ReadEv.intr :: _ =>
      (loopHeader ++ [Ev.print "\nExiting the application."], LoopExit.normal)
  | k, ReadEv.line s :: rest =>
      if stopLine s then
        (loopHeader ++ [Ev.print "Exiting the application."], LoopExit.normal)
      else
        match taskOut k with
        | Outcome.intr =>
            (loopHeader ++ questionEvents (pyStrip s) Outcome.intr, LoopExit.interrupted)
        | Outcome.ok out =>
            let t := loop taskOut (k + 1) rest
            (loopHeader ++ questionEvents (pyStrip s) (Outcome.ok out) ++ t.1, t.2)
        | Outcome.exc =>
            let t := loop taskOut (k + 1) rest
            (loopHeader ++ questionEvents (pyStrip s) Outcome.exc ++ t.1, t.2)

/-- Result of the inner `try:` body (lines 77–112): its events, whether each
agent got constructed, and how the body ended. -/
inductive BodyRes where
  | normal
  | raised (s : Sig)
  | pending
deriving DecidableEq, Repr

/-- How a loop exit leaves the inner body: a `break` is a normal body end,
an escaping interrupt is a raised `KeyboardInterrupt`. -/
def loopExitRes : LoopExit → BodyRes
  | LoopExit.normal => BodyRes.normal
  | LoopExit.interrupted => BodyRes.raised Sig.intr
  | LoopExit.pending => BodyRes.pending

/-- One run's external world: outcome of the module imports, the data-file
existence check, each pre-loop collaborator call, the console reads, the
per-turn `task` outcomes, and whether each `cleanup()` raises. -/
structure Env where
  importOk : Bool
  csvExists : Bool
  mkFileAgent : Outcome Unit
  mkPythonAgent : Outcome Unit
  fileTaskOutcome : Outcome String
  addContext1 : Outcome Unit
  addContext2 : Outcome Unit
  reads : List ReadEv
  taskOut : Nat → Outcome String
  fileCleanupRaises : Bool
  pythonCleanupRaises : Bool

/-- The inner `try:` body: construct both agents, run the file-understanding
call, the two context-seeding calls, then the interactive loop.  Any `exc` or
`intr` outcome of a pre-loop call escapes the body (there is no local
handler there); a loop `interrupted` exit is an escaping interrupt. -/
def tryBody (mkF mkP : Outcome Unit) (ft : Outcome String)
    (a1 a2 : Outcome Unit) (taskOut : Nat → Outcome String)
    (reads : List ReadEv) : List Ev × Bool × Bool × BodyRes :=
  match mkF with
  | Outcome.exc => ([], false, false, BodyRes.raised Sig.exc)
  | Outcome.intr => ([], false, false, BodyRes.raised Sig.intr)
  | Outcome.ok _ =>
    match mkP with
    | Outcome.exc => ([Ev.constructFileAgent], true, false, BodyRes.raised Sig.exc)
    | Outcome.intr => ([Ev.constructFileAgent], true, false, BodyRes.raised Sig.intr)
    | Outcome.ok _ =>
      let base := [Ev.constructFileAgent, Ev.constructPythonAgent,
                   Ev.print "Understanding the contents of the file...",
                   Ev.fileTask promptText]
      match ft with
      | Outcome.exc => (base, true, true, BodyRes.raised Sig.exc)
      | Outcome.intr => (base, true, true, BodyRes.raised Sig.intr)
      | Outcome.ok out =>
        let b1 := base ++ [Ev.addContext promptText]
        match a1 with
        | Outcome.exc => (b1, true, true, BodyRes.raised Sig.exc)
        | Outcome.intr => (b1, true, true, BodyRes.raised Sig.intr)
        | Outcome.ok _ =>
          let b2 := b1 ++ [Ev.addContext out]
          match a2 with
          | Outcome.exc => (b2, true, true, BodyRes.raised Sig.exc)
          | Outcome.intr => (b2, true, true, BodyRes.raised Sig.intr)
          | Outcome.ok _ =>
            let l := loop taskOut 0 reads
            (b2 ++ l.1, true, true, loopExitRes l.2)

/-- Events of the `finally:` block: each constructed agent's `cleanup()` is
attempted inside its own `try/except Exception`, so a raising cleanup is
logged and swallowed and never stops the other agent's cleanup. -/
def cleanupEvents (fc pc : Bool) (fcRaises pcRaises : Bool) : List Ev :=
  (if fc then
    Ev.fileCleanup ::
      (if fcRaises then [Ev.logError "Error cleaning up file ingestion agent"] else [])
   else []) ++
  (if pc then
    Ev.pythonCleanup ::
      (if pcRaises then [Ev.logError "Error cleaning up data analysis agent"] else [])
   else [])

/-- Prints at the top of `main()` (lines 62–64), before the file check. -/
def setupEvents : List Ev :=
  [Ev.print "Setup:", Ev.print promptText, Ev.logInfo "Setting up the agents..."]

/-- Events printed when the data file is missing (lines 69–70), before
`sys.exit(1)`. -/
def missingFileEvents : List Ev :=
  [Ev.logError ("Required file not found: " ++ csvRelPath),
   Ev.print ("Error: Required data file not found. " ++
     "Please ensure traffic_accidents.csv exists in the resources/data directory.")]

/-- The `finally:` block followed by the outer handlers, applied to the
inner body's result: cleanup of the constructed agents always runs; then a
`KeyboardInterrupt` escaping the body prints the graceful message and
`main()` returns normally (status 0), any other exception is logged and the
process exits with status 1. -/
def mainBody : List Ev × Bool × Bool × BodyRes → Bool → Bool → List Ev × Status
  | (evs, _, _, BodyRes.pending), _, _ =>
      (setupEvents ++ evs, Status.pending)
  | (evs, fc, pc, BodyRes.normal), fr, pr =>
      (setupEvents ++ evs ++ cleanupEvents fc pc fr pr, Status.exited 0)
  | (evs, fc, pc, BodyRes.raised Sig.intr), fr, pr =>
      (setupEvents ++ evs ++ cleanupEvents fc pc fr pr ++
        [Ev.print "\nApplication interrupted by user. Exiting gracefully."],
       Status.exited 0)
  | (evs, fc, pc, BodyRes.raised Sig.exc), fr, pr =>
      (setupEvents ++ evs ++ cleanupEvents fc pc fr pr ++
        [Ev.logError "Unexpected error in the main execution loop."],
       Status.exited 1)

/-- `main()`: setup prints, file-existence guard (a missing file calls
`sys.exit(1)`, whose `SystemExit` passes through both outer handlers), the
inner `try/finally`, and the outer handlers. -/
def mainRun (env : Env) : List Ev × Status :=
  if env.csvExists then
    mainBody
      (tryBody env.mkFileAgent env.mkPythonAgent env.fileTaskOutcome
        env.addContext1 env.addContext2 env.taskOut env.reads)
      env.fileCleanupRaises env.pythonCleanupRaises
  else
    (setupEvents ++ missingFileEvents, Status.exited 1)

/-- The whole process: the module-level import guard (lines 35–41) then
`main()`; a normal return from `main()` exits with status 0. -/
def program (env : Env) : List Ev × Status :=
  if env.importOk then mainRun env
  else
    ([Ev.logError ("Failed to import agent modules. " ++
       "Verify that PYTHONPATH and project structure are set correctly.")],
     Status.exited 1)

/-- Event classifiers used to count calls in a trace. -/
def isFileCleanup : Ev → Bool
  | Ev.fileCleanup => true
  | _ => false

def isPythonCleanup : Ev → Bool
  | Ev.pythonCleanup => true
  | _ => false

def isConstructFile : Ev → Bool
  | Ev.constructFileAgent => true
  | _ => false

def isConstructPython : Ev → Bool
  | Ev.constructPythonAgent => true
  | _ => false

def isFileTaskEv : Ev → Bool
  | Ev.fileTask _ => true
  | _ => false

def isAddContext : Ev → Bool
  | Ev.addContext _ => true
  | _ => false

def isPythonTask : Ev → Bool
  | Ev.pythonTask _ => true
  | _ => false

/-- Number of events satisfying `p` in a trace. -/
def countEv (p : Ev → Bool) (l : List Ev) : Nat :=
  l.countP p

/-- Events the interactive loop itself can emit: prints, error logs and
`task` calls on the code-execution agent. -/
def isLoopEv : Ev → Bool
  | Ev.print _ => true
  | Ev.logError _ => true
  | Ev.pythonTask _ => true
  | _ => false

/-- The first escaping signal of the pre-loop phase (construction,
file-understanding, context seeding), if any. -/
def sigOf {α : Type} : Outcome α → Option Sig
  | Outcome.ok _ => none
  | Outcome.exc => some Sig.exc
  | Outcome.intr => some Sig.intr

def preSigOf (mkF mkP : Outcome Unit) (ft : Outcome String)
    (a1 a2 : Outcome Unit) : Option Sig :=
  match sigOf mkF with
  | some s => some s
  | none =>
    match sigOf mkP with
    | some s => some s
    | none =>
      match sigOf ft with
      | some s => some s
      | none =>
        match sigOf a1 with
        | some s => some s
        | none => sigOf a2

def preSig (env : Env) : Option Sig :=
  preSigOf env.mkFileAgent env.mkPythonAgent env.fileTaskOutcome
    env.addContext1 env.addContext2

/-- Concrete run: file present, every call succeeds, the user immediately
types "exit". -/
def envImmediateExit : Env :=
  { importOk := true, csvExists := true, mkFileAgent := Outcome.ok (),
    mkPythonAgent := Outcome.ok (), fileTaskOutcome := Outcome.ok "FILE_DESCRIPTION",
    addContext1 := Outcome.ok (), addContext2 := Outcome.ok (),
    reads := [ReadEv.line "exit"], taskOut := fun _ => Outcome.ok "",
    fileCleanupRaises := false, pythonCleanupRaises := false }

/-- Concrete run: the data file is absent. -/
def envMissingFile : Env :=
  { importOk := true, csvExists := false, mkFileAgent := Outcome.ok (),
    mkPythonAgent := Outcome.ok (), fileTaskOutcome := Outcome.ok "",
    addContext1 := Outcome.ok (), addContext2 := Outcome.ok (),
    reads := [], taskOut := fun _ => Outcome.ok "",
    fileCleanupRaises := false, pythonCleanupRaises := false }

/-- Concrete run: both agents construct, but the file-understanding call
raises an ordinary exception. -/
def envPreloopError : Env :=
  { importOk := true, csvExists := true, mkFileAgent := Outcome.ok (),
    mkPythonAgent := Outcome.ok (), fileTaskOutcome := Outcome.exc,
    addContext1 := Outcome.ok (), addContext2 := Outcome.ok (),
    reads := [], taskOut := fun _ => Outcome.ok "",
    fileCleanupRaises := false, pythonCleanupRaises := false }

/-- Concrete run: setup succeeds, the first question's `task` call is hit by
a `KeyboardInterrupt`. -/
def envTaskInterrupt : Env :=
  { importOk := true, csvExists := true, mkFileAgent := Outcome.ok (),
    mkPythonAgent := Outcome.ok (), fileTaskOutcome := Outcome.ok "FILE_DESCRIPTION",
    addContext1 := Outcome.ok (), addContext2 := Outcome.ok (),
    reads := [ReadEv.line "q"], taskOut := fun _ => Outcome.intr,
    fileCleanupRaises := false, pythonCleanupRaises := false }

lemma loopHeader_loopEv : ∀ e ∈ loopHeader, isLoopEv e = true := by
  intro e he
  simp [loopHeader] at he
  rcases he with rfl | rfl <;> rfl

lemma questionEvents_loopEv (q : String) (r : Outcome String) :
    ∀ e ∈ questionEvents q r, isLoopEv e = true := by
  intro e he
  cases r with
  | ok out =>
    simp [questionEvents] at he
    rcases he with rfl | rfl | rfl | rfl | rfl <;> rfl
  | exc =>
    simp [questionEvents] at he
    rcases he with rfl | rfl | rfl | rfl | rfl <;> rfl
  | intr =>
    simp [questionEvents] at he
    rcases he with rfl | rfl | rfl <;> rfl

lemma loop_loopEv (taskOut : Nat → Outcome String) :
    ∀ (rs : List ReadEv) (k : Nat), ∀ e ∈ (loop taskOut k rs).1, isLoopEv e = true := by
  intro rs
  induction rs with
  | nil =>
    intro k e he
    simp only [loop] at he
    exact loopHeader_loopEv e he
  | cons r rest ih =>
    intro k e he
    cases r with
    | eof =>
      simp only [loop, List.mem_append, List.mem_singleton] at he
      rcases he with he | rfl
      · exact loopHeader_loopEv e he
      · rfl
    | intr =>
      simp only [loop, List.mem_append, List.mem_singleton] at he
      rcases he with he | rfl
      · exact loopHeader_loopEv e he
      · rfl
    | line s =>
      simp only [loop] at he
      by_cases hs : stopLine s
      · rw [if_pos hs] at he
        simp only [List.mem_append, List.mem_singleton] at he
        rcases he with he | rfl
        · exact loopHeader_loopEv e he
        · rfl
      · rw [if_neg hs] at he
        cases ht : taskOut k with
        | ok out =>
          rw [ht] at he
          simp only [List.mem_append] at he
          rcases he with (he | he) | he
          · exact loopHeader_loopEv e he
          · exact questionEvents_loopEv _ _ e he
          · exact ih (k + 1) e he
        | exc =>
          rw [ht] at he
          simp only [List.mem_append] at he
          rcases he with (he | he) | he
          · exact loopHeader_loopEv e he
          · exact questionEvents_loopEv _ _ e he
          · exact ih (k + 1) e he
        | intr =>
          rw [ht] at he
          simp only [List.mem_append] at he
          rcases he with he | he
          · exact loopHeader_loopEv e he
          · exact questionEvents_loopEv _ _ e he

lemma countEv_zero_of_notLoopEv {p : Ev → Bool} (hp : ∀ e, isLoopEv e = true → p e = false)
    (taskOut : Nat → Outcome String) (k : Nat) (rs : List ReadEv) :
    countEv p (loop taskOut k rs).1 = 0 := by
  rw [countEv, List.countP_eq_zero]
  intro a ha
  simp [hp a (loop_loopEv taskOut rs k a ha)]

lemma loop_no_fileCleanup (taskOut : Nat → Outcome String) (k : Nat) (rs : List ReadEv) :
    countEv isFileCleanup (loop taskOut k rs).1 = 0 :=
  countEv_zero_of_notLoopEv (by intro e he; cases e <;> simp_all [isLoopEv, isFileCleanup]) taskOut k rs

lemma loop_no_pythonCleanup (taskOut : Nat → Outcome String) (k : Nat) (rs : List ReadEv) :
    countEv isPythonCleanup (loop taskOut k rs).1 = 0 :=
  countEv_zero_of_notLoopEv (by intro e he; cases e <;> simp_all [isLoopEv, isPythonCleanup]) taskOut k rs

lemma loop_no_constructFile (taskOut : Nat → Outcome String) (k : Nat) (rs : List ReadEv) :
    countEv isConstructFile (loop taskOut k rs).1 = 0 :=
  countEv_zero_of_notLoopEv (by intro e he; cases e <;> simp_all [isLoopEv, isConstructFile]) taskOut k rs

lemma loop_no_constructPython (taskOut : Nat → Outcome String) (k : Nat) (rs : List ReadEv) :
    countEv isConstructPython (loop taskOut k rs).1 = 0 :=
  countEv_zero_of_notLoopEv (by intro e he; cases e <;> simp_all [isLoopEv, isConstructPython]) taskOut k rs

lemma loop_no_fileTask (taskOut : Nat → Outcome String) (k : Nat) (rs : List ReadEv) :
    countEv isFileTaskEv (loop taskOut k rs).1 = 0 :=
  countEv_zero_of_notLoopEv (by intro e he; cases e <;> simp_all [isLoopEv, isFileTaskEv]) taskOut k rs

lemma loop_no_addContext (taskOut : Nat → Outcome String) (k : Nat) (rs : List ReadEv) :
    countEv isAddContext (loop taskOut k rs).1 = 0 :=
  countEv_zero_of_notLoopEv (by intro e he; cases e <;> simp_all [isLoopEv, isAddContext]) taskOut k rs

lemma countEv_nil (p : Ev → Bool) : countEv p [] = 0 := rfl

lemma countEv_cons (p : Ev → Bool) (e : Ev) (l : List Ev) :
    countEv p (e :: l) = countEv p l + (if p e then 1 else 0) := by
  simp [countEv, List.countP_cons]

lemma countEv_append (p : Ev → Bool) (l1 l2 : List Ev) :
    countEv p (l1 ++ l2) = countEv p l1 + countEv p l2 := by
  simp [countEv, List.countP_append]

lemma cleanupEvents_count_fileCleanup (fc pc fr pr : Bool) :
    countEv isFileCleanup (cleanupEvents fc pc fr pr) = if fc then 1 else 0 := by
  cases fc <;> cases pc <;> cases fr <;> cases pr <;> rfl

lemma cleanupEvents_count_pythonCleanup (fc pc fr pr : Bool) :
    countEv isPythonCleanup (cleanupEvents fc pc fr pr) = if pc then 1 else 0 := by
  cases fc <;> cases pc <;> cases fr <;> cases pr <;> rfl

lemma cleanupEvents_count_constructFile (fc pc fr pr : Bool) :
    countEv isConstructFile (cleanupEvents fc pc fr pr) = 0 := by
  cases fc <;> cases pc <;> cases fr <;> cases pr <;> rfl

lemma cleanupEvents_count_constructPython (fc pc fr pr : Bool) :
    countEv isConstructPython (cleanupEvents fc pc fr pr) = 0 := by
  cases fc <;> cases pc <;> cases fr <;> cases pr <;> rfl

lemma cleanupEvents_count_pythonTask (fc pc fr pr : Bool) :
    countEv isPythonTask (cleanupEvents fc pc fr pr) = 0 := by
  cases fc <;> cases pc <;> cases fr <;> cases pr <;> rfl

lemma tryBody_counts (mkF mkP : Outcome Unit) (ft : Outcome String) (a1 a2 : Outcome Unit)
    (taskOut : Nat → Outcome String) (reads : List ReadEv) :
    countEv isConstructFile (tryBody mkF mkP ft a1 a2 taskOut reads).1
      = (if (tryBody mkF mkP ft a1 a2 taskOut reads).2.1 then 1 else 0)
  ∧ countEv isConstructPython (tryBody mkF mkP ft a1 a2 taskOut reads).1
      = (if (tryBody mkF mkP ft a1 a2 taskOut reads).2.2.1 then 1 else 0)
  ∧ countEv isFileCleanup (tryBody mkF mkP ft a1 a2 taskOut reads).1 = 0
  ∧ countEv isPythonCleanup (tryBody mkF mkP ft a1 a2 taskOut reads).1 = 0 := by
  cases mkF <;> cases mkP <;> cases ft <;> cases a1 <;> cases a2 <;>
    simp [tryBody, countEv_append, countEv_cons, countEv_nil,
      isConstructFile, isConstructPython, isFileCleanup, isPythonCleanup,
      loop_no_constructFile, loop_no_constructPython,
      loop_no_fileCleanup, loop_no_pythonCleanup]

lemma tryBody_res (mkF mkP : Outcome Unit) (ft : Outcome String) (a1 a2 : Outcome Unit)
    (taskOut : Nat → Outcome String) (reads : List ReadEv) :
    (tryBody mkF mkP ft a1 a2 taskOut reads).2.2.2 =
      match preSigOf mkF mkP ft a1 a2 with
      | some s => BodyRes.raised s
      | none => loopExitRes (loop taskOut 0 reads).2 := by
  cases mkF <;> cases mkP <;> cases ft <;> cases a1 <;> cases a2 <;> rfl

lemma questionEvents_count_pythonTask (q : String) (r : Outcome String) :
    countEv isPythonTask (questionEvents q r) = 1 := by
  cases r <;> rfl

lemma loopHeader_count_pythonTask : countEv isPythonTask loopHeader = 0 := rfl

lemma recovery_ne_promptText :
    ¬("An error occurred while processing your request. Please try again." = promptText) := by
  decide

lemma recovery_ne_userQuestion (t : String) :
    ¬(("An error occurred while processing your request. Please try again." : String)
        = "User question: " ++ t) := by
  intro h
  have h2 : ("An error occurred while processing your request. Please try again." :
      String).data.head? = ("User question: " ++ t : String).data.head? := by rw [h]
  have hL : ("An error occurred while processing your request. Please try again." :
      String).data.head? = some 'A' := rfl
  have hR : (("User question: " ++ t : String)).data.head? = some 'U' := rfl
  rw [hL, hR] at h2
  exact absurd h2 (by decide)

lemma print_not_mem_cleanupEvents (s : String) (fc pc fr pr : Bool) :
    Ev.print s ∉ cleanupEvents fc pc fr pr := by
  cases fc <;> cases pc <;> cases fr <;> cases pr <;> simp [cleanupEvents]

set_option maxRecDepth 100000

/-- C1: on every run that finishes (any exit path — normal loop exit,
end-of-input or interrupt mid-loop, an uncaught error after construction, or
a failed construction of the other handle), each successfully constructed
agent handle has `cleanup()` invoked exactly once before the process exits
(cleanup count = construction count, at most one each); and whether either
agent's `cleanup()` raises changes neither the other agent's cleanup count
nor the file agent's own, nor the process exit status. -/
theorem cleanup_once_per_agent_and_cleanup_failure_isolated (env : Env)
    (h : (program env).2 ≠ Status.pending) :
    countEv isFileCleanup (program env).1 = countEv isConstructFile (program env).1
  ∧ countEv isPythonCleanup (program env).1 = countEv isConstructPython (program env).1
  ∧ countEv isConstructFile (program env).1 ≤ 1
  ∧ countEv isConstructPython (program env).1 ≤ 1
  ∧ ∀ b1 b2 : Bool,
      (program { env with fileCleanupRaises := b1, pythonCleanupRaises := b2 }).2
        = (program env).2
    ∧ countEv isFileCleanup
        (program { env with fileCleanupRaises := b1, pythonCleanupRaises := b2 }).1
        = countEv isFileCleanup (program env).1
    ∧ countEv isPythonCleanup
        (program { env with fileCleanupRaises := b1, pythonCleanupRaises := b2 }).1
        = countEv isPythonCleanup (program env).1 := by
  rcases env with ⟨imp, csv, mkF, mkP, ft, a1, a2, reads, taskOut, fr, pr⟩
  cases imp
  · simp [program, countEv_cons, countEv_nil, isFileCleanup, isPythonCleanup,
      isConstructFile, isConstructPython]
  · cases csv
    · simp [program, mainRun, setupEvents, missingFileEvents,
        countEv_append, countEv_cons, countEv_nil, isFileCleanup, isPythonCleanup,
        isConstructFile, isConstructPython]
    · have hc := tryBody_counts mkF mkP ft a1 a2 taskOut reads
      rcases htb : tryBody mkF mkP ft a1 a2 taskOut reads with ⟨evs, fc, pc, res⟩
      rw [htb] at hc
      simp only [program, mainRun, if_true] at h ⊢
      rw [htb] at h ⊢
      simp only at hc
      cases res with
      | pending => simp [mainBody] at h
      | normal =>
        simp [mainBody, countEv_append, countEv_cons, countEv_nil,
          setupEvents, isFileCleanup, isPythonCleanup, isConstructFile, isConstructPython,
          cleanupEvents_count_fileCleanup, cleanupEvents_count_pythonCleanup,
          cleanupEvents_count_constructFile, cleanupEvents_count_constructPython,
          hc.1, hc.2.1, hc.2.2.1, hc.2.2.2] <;> cases fc <;> cases pc <;> simp
      | raised s =>
        cases s <;>
        simp [mainBody, countEv_append, countEv_cons, countEv_nil,
          setupEvents, isFileCleanup, isPythonCleanup, isConstructFile, isConstructPython,
          cleanupEvents_count_fileCleanup, cleanupEvents_count_pythonCleanup,
          cleanupEvents_count_constructFile, cleanupEvents_count_constructPython,
          hc.1, hc.2.1, hc.2.2.1, hc.2.2.2] <;> cases fc <;> cases pc <;> simp

/-- Witness for C1 at a concrete environment (immediate "exit"). -/
theorem cleanup_once_per_agent_witness :
    countEv isFileCleanup (program envImmediateExit).1
      = countEv isConstructFile (program envImmediateExit).1 :=
  (cleanup_once_per_agent_and_cleanup_failure_isolated envImmediateExit (by decide)).1

/-- C2: whenever the data file is absent, the process prints the
user-facing error, exits with status 1, and never constructs either agent. -/
theorem missing_file_exits_before_any_construction (env : Env)
    (h1 : env.importOk = true) (h2 : env.csvExists = false) :
    (program env).2 = Status.exited 1
  ∧ Ev.print ("Error: Required data file not found. " ++
      "Please ensure traffic_accidents.csv exists in the resources/data directory.")
      ∈ (program env).1
  ∧ countEv isConstructFile (program env).1 = 0
  ∧ countEv isConstructPython (program env).1 = 0 := by
  have hp : program env = (setupEvents ++ missingFileEvents, Status.exited 1) := by
    simp [program, mainRun, h1, h2]
  rw [hp]
  refine ⟨rfl, by simp [setupEvents, missingFileEvents], by decide, by decide⟩

/-- Witness for C2 at a concrete environment. -/
theorem missing_file_witness : (program envMissingFile).2 = Status.exited 1 :=
  (missing_file_exits_before_any_construction envMissingFile rfl rfl).1

/-- C3: the loop iteration terminates with the farewell print exactly on
end-of-input, an interrupt during the read, or input whose stripped,
lowercased form is "exit" (then with no `task` call on the code-execution
agent); any other line leads to at least one further `task` call. -/
theorem loop_stops_exactly_on_exit_eof_or_interrupt
    (taskOut : Nat → Outcome String) (k : Nat) (rest : List ReadEv) :
    (∀ s : String, stopLine s = true →
        loop taskOut k (ReadEv.line s :: rest)
          = (loopHeader ++ [Ev.print "Exiting the application."], LoopExit.normal)
      ∧ countEv isPythonTask (loop taskOut k (ReadEv.line s :: rest)).1 = 0)
  ∧ loop taskOut k (ReadEv.eof :: rest)
      = (loopHeader ++ [Ev.print "\nExiting the application."], LoopExit.normal)
  ∧ loop taskOut k (ReadEv.intr :: rest)
      = (loopHeader ++ [Ev.print "\nExiting the application."], LoopExit.normal)
  ∧ (∀ s : String, stopLine s = false →
      1 ≤ countEv isPythonTask (loop taskOut k (ReadEv.line s :: rest)).1) := by
  refine ⟨?_, rfl, rfl, ?_⟩
  · intro s hs
    constructor
    · simp [loop, hs]
    · simp [loop, hs]
      decide
  · intro s hs
    cases ht : taskOut k with
    | ok out =>
      simp [loop, hs, ht, countEv_append, questionEvents_count_pythonTask,
        loopHeader_count_pythonTask]
    | exc =>
      simp [loop, hs, ht, countEv_append, questionEvents_count_pythonTask,
        loopHeader_count_pythonTask]
    | intr =>
      simp [loop, hs, ht, countEv_append, questionEvents_count_pythonTask,
        loopHeader_count_pythonTask]

/-- Witness for C3 on the input " EXIT " (casing and surrounding
whitespace). -/
theorem loop_stop_witness :
    loop (fun _ => Outcome.ok "") 0 [ReadEv.line " EXIT "]
      = (loopHeader ++ [Ev.print "Exiting the application."], LoopExit.normal) :=
  ((loop_stops_exactly_on_exit_eof_or_interrupt (fun _ => Outcome.ok "") 0 []).1
    " EXIT " (by decide)).1

/-- C4: if the `task` call of turn k raises an ordinary error, that turn
ends with the error logged and the generic failure message printed, and the
loop then continues on the remaining input exactly as a fresh loop at turn
k+1 — the next question is still accepted and processed. -/
theorem failed_question_isolated_next_turn_processed
    (taskOut : Nat → Outcome String) (k : Nat) (s : String) (rest : List ReadEv)
    (h1 : stopLine s = false) (h2 : taskOut k = Outcome.exc) :
    loop taskOut k (ReadEv.line s :: rest)
      = (loopHeader ++ questionEvents (pyStrip s) Outcome.exc ++ (loop taskOut (k + 1) rest).1,
         (loop taskOut (k + 1) rest).2)
  ∧ Ev.logError "Error during dynamic code generation or execution."
      ∈ questionEvents (pyStrip s) Outcome.exc
  ∧ Ev.print "An error occurred while processing your request. Please try again."
      ∈ questionEvents (pyStrip s) Outcome.exc := by
  refine ⟨by simp [loop, h1, h2], by simp [questionEvents], by simp [questionEvents]⟩

/-- Witness for C4: a failing first question, with the loop continuing. -/
theorem failed_question_witness :
    loop (fun _ => Outcome.exc) 0 [ReadEv.line "q1"]
      = (loopHeader ++ questionEvents (pyStrip "q1") Outcome.exc
          ++ (loop (fun _ => Outcome.exc) 1 []).1,
         (loop (fun _ => Outcome.exc) 1 []).2) :=
  (failed_question_isolated_next_turn_processed (fun _ => Outcome.exc) 0 "q1" []
    (by decide) rfl).1

/-- C5: every finished run exits 0 or 1, and it exits 1 precisely when the
collaborator imports fail, the data file is missing, or an ordinary uncaught
exception escapes the pre-loop phase; all other finished runs (normal
interactive exit, interrupts anywhere) exit 0. -/
theorem exit_status_classification (env : Env)
    (h : (program env).2 ≠ Status.pending) :
    ((program env).2 = Status.exited 0 ∨ (program env).2 = Status.exited 1)
  ∧ ((program env).2 = Status.exited 1 ↔
      (env.importOk = false ∨ env.csvExists = false ∨ preSig env = some Sig.exc)) := by
  rcases env with ⟨imp, csv, mkF, mkP, ft, a1, a2, reads, taskOut, fr, pr⟩
  cases imp
  · simp [program]
  · cases csv
    · simp [program, mainRun]
    · have hres := tryBody_res mkF mkP ft a1 a2 taskOut reads
      rcases htb : tryBody mkF mkP ft a1 a2 taskOut reads with ⟨evs, fc, pc, res⟩
      rw [htb] at hres
      simp only at hres
      simp only [program, mainRun, if_true] at h ⊢
      rw [htb] at h ⊢
      simp only [preSig]
      rcases hps : preSigOf mkF mkP ft a1 a2 with _ | s
      · rw [hps] at hres
        simp only at hres
        cases hl : (loop taskOut 0 reads).2 <;> rw [hl] at hres <;>
          simp only [loopExitRes] at hres <;> subst hres
        · simp [mainBody]
        · simp [mainBody]
        · simp [mainBody] at h
      · rw [hps] at hres
        simp only at hres
        subst hres
        cases s
        · simp [mainBody]
        · simp [mainBody]

/-- Witness for C5 at a concrete environment (missing data file). -/
theorem exit_status_witness :
    (program envMissingFile).2 = Status.exited 0
  ∨ (program envMissingFile).2 = Status.exited 1 :=
  (exit_status_classification envMissingFile (by decide)).1

/-- C6: with the file present and the user immediately typing "exit", the
run prints the setup prompt once, performs exactly one file-understanding
`task` call and exactly two `add_context` calls — dataset prompt first, then
the file-description output — asks no question, exits with status 0, and
cleans up each agent exactly once. -/
theorem immediate_exit_scenario :
    (program envImmediateExit).2 = Status.exited 0
  ∧ countEv isFileTaskEv (program envImmediateExit).1 = 1
  ∧ (program envImmediateExit).1.filter isAddContext
      = [Ev.addContext promptText, Ev.addContext "FILE_DESCRIPTION"]
  ∧ countEv isPythonTask (program envImmediateExit).1 = 0
  ∧ countEv isFileCleanup (program envImmediateExit).1 = 1
  ∧ countEv isPythonCleanup (program envImmediateExit).1 = 1
  ∧ countEv (fun e => e == Ev.print promptText) (program envImmediateExit).1 = 1
  ∧ countEv (fun e => e == Ev.print "Setup:") (program envImmediateExit).1 = 1 := by
  decide

/-- C7: an ordinary error in the file-understanding call or in either
context-seeding call is not handled locally: the run ends with status 1 via
the outer handler, both agents are still cleaned up, no question is ever
dispatched, and the per-question recovery message is never printed. -/
theorem preloop_call_errors_propagate_to_outer_handler (env : Env)
    (h1 : env.importOk = true) (h2 : env.csvExists = true)
    (h3 : env.mkFileAgent = Outcome.ok ()) (h4 : env.mkPythonAgent = Outcome.ok ())
    (h5 : env.fileTaskOutcome = Outcome.exc
        ∨ ((∃ out, env.fileTaskOutcome = Outcome.ok out) ∧ env.addContext1 = Outcome.exc)
        ∨ ((∃ out, env.fileTaskOutcome = Outcome.ok out) ∧ env.addContext1 = Outcome.ok ()
            ∧ env.addContext2 = Outcome.exc)) :
    (program env).2 = Status.exited 1
  ∧ countEv isFileCleanup (program env).1 = 1
  ∧ countEv isPythonCleanup (program env).1 = 1
  ∧ Ev.print "An error occurred while processing your request. Please try again."
      ∉ (program env).1
  ∧ countEv isPythonTask (program env).1 = 0 := by
  rcases env with ⟨imp, csv, mkF, mkP, ft, a1, a2, reads, taskOut, fr, pr⟩
  simp only at h1 h2 h3 h4 h5
  subst h1 h2 h3 h4
  rcases h5 with h5 | ⟨⟨out, hft⟩, ha1⟩ | ⟨⟨out, hft⟩, ha1, ha2⟩
  · subst h5
    refine ⟨rfl, ?_, ?_, ?_, ?_⟩ <;>
      simp [program, mainRun, mainBody, tryBody, setupEvents,
        countEv_append, countEv_cons, countEv_nil,
        isFileCleanup, isPythonCleanup, isPythonTask,
        cleanupEvents_count_fileCleanup, cleanupEvents_count_pythonCleanup,
        cleanupEvents_count_pythonTask, print_not_mem_cleanupEvents,
        recovery_ne_promptText]
  · subst hft ha1
    refine ⟨rfl, ?_, ?_, ?_, ?_⟩ <;>
      simp [program, mainRun, mainBody, tryBody, setupEvents,
        countEv_append, countEv_cons, countEv_nil,
        isFileCleanup, isPythonCleanup, isPythonTask,
        cleanupEvents_count_fileCleanup, cleanupEvents_count_pythonCleanup,
        cleanupEvents_count_pythonTask, print_not_mem_cleanupEvents,
        recovery_ne_promptText]
  · subst hft ha1 ha2
    refine ⟨rfl, ?_, ?_, ?_, ?_⟩ <;>
      simp [program, mainRun, mainBody, tryBody, setupEvents,
        countEv_append, countEv_cons, countEv_nil,
        isFileCleanup, isPythonCleanup, isPythonTask,
        cleanupEvents_count_fileCleanup, cleanupEvents_count_pythonCleanup,
        cleanupEvents_count_pythonTask, print_not_mem_cleanupEvents,
        recovery_ne_promptText]

/-- Witness for C7: the file-understanding call raising an error. -/
theorem preloop_error_witness : (program envPreloopError).2 = Status.exited 1 :=
  (preloop_call_errors_propagate_to_outer_handler envPreloopError rfl rfl rfl rfl
    (Or.inl rfl)).1

/-- C8: the setup header and the full dataset schema prompt are printed
before the data-file existence check, so on the missing-file path the trace
is exactly the setup prints followed by the error prints — the schema prompt
appears exactly once before the error, and only the "Your question: " prompt
is suppressed. -/
theorem schema_prompt_precedes_file_check (env : Env)
    (h1 : env.importOk = true) (h2 : env.csvExists = false) :
    program env = (setupEvents ++ missingFileEvents, Status.exited 1)
  ∧ setupEvents
      = [Ev.print "Setup:", Ev.print promptText, Ev.logInfo "Setting up the agents..."]
  ∧ missingFileEvents
      = [Ev.logError ("Required file not found: " ++ csvRelPath),
         Ev.print ("Error: Required data file not found. " ++
           "Please ensure traffic_accidents.csv exists in the resources/data directory.")]
  ∧ countEv (fun e => e == Ev.print promptText) (program env).1 = 1
  ∧ countEv (fun e => e == Ev.print "Your question: ") (program env).1 = 0 := by
  have hp : program env = (setupEvents ++ missingFileEvents, Status.exited 1) := by
    simp [program, mainRun, h1, h2]
  refine ⟨hp, rfl, rfl, by rw [hp]; decide, by rw [hp]; decide⟩

/-- Witness for C8 at a concrete environment. -/
theorem schema_prompt_witness :
    program envMissingFile = (setupEvents ++ missingFileEvents, Status.exited 1) :=
  (schema_prompt_precedes_file_check envMissingFile rfl rfl).1

/-- C9: every line whose stripped, lowercased form is not "exit" — a blank
line included — is echoed as the stripped text and dispatched in exactly one
`task` call on the code-execution agent with the stripped text as argument,
after which (absent an interrupt) the loop continues on the rest of the
input. -/
theorem nonexit_input_dispatched_once_stripped
    (taskOut : Nat → Outcome String) (k : Nat) (s : String) (rest : List ReadEv)
    (h : stopLine s = false) :
    ∃ tl : List Ev, ∃ ex : LoopExit,
      loop taskOut k (ReadEv.line s :: rest)
        = (loopHeader ++ questionEvents (pyStrip s) (taskOut k) ++ tl, ex)
    ∧ countEv isPythonTask (questionEvents (pyStrip s) (taskOut k)) = 1
    ∧ countEv isPythonTask loopHeader = 0
    ∧ Ev.pythonTask (pyStrip s) ∈ questionEvents (pyStrip s) (taskOut k)
    ∧ Ev.print ("User question: " ++ pyStrip s) ∈ questionEvents (pyStrip s) (taskOut k)
    ∧ (taskOut k ≠ Outcome.intr →
        tl = (loop taskOut (k + 1) rest).1 ∧ ex = (loop taskOut (k + 1) rest).2) := by
  cases ht : taskOut k with
  | ok out =>
    refine ⟨(loop taskOut (k + 1) rest).1, (loop taskOut (k + 1) rest).2,
      by simp [loop, h, ht], by simp [questionEvents_count_pythonTask],
      rfl, by simp [questionEvents], by simp [questionEvents],
      fun _ => ⟨rfl, rfl⟩⟩
  | exc =>
    refine ⟨(loop taskOut (k + 1) rest).1, (loop taskOut (k + 1) rest).2,
      by simp [loop, h, ht], by simp [questionEvents_count_pythonTask],
      rfl, by simp [questionEvents], by simp [questionEvents],
      fun _ => ⟨rfl, rfl⟩⟩
  | intr =>
    refine ⟨[], LoopExit.interrupted,
      by simp [loop, h, ht], by simp [questionEvents_count_pythonTask],
      rfl, by simp [questionEvents], by simp [questionEvents],
      fun hn => absurd rfl hn⟩

/-- Witness for C9 on a blank line: it is dispatched as `task("")`, not
treated as exit. -/
theorem nonexit_input_witness :
    ∃ tl : List Ev, ∃ ex : LoopExit,
      loop (fun _ => Outcome.ok "42") 0 [ReadEv.line ""]
        = (loopHeader ++ questionEvents (pyStrip "") (Outcome.ok "42") ++ tl, ex) := by
  obtain ⟨tl, ex, heq, _⟩ :=
    nonexit_input_dispatched_once_stripped (fun _ => Outcome.ok "42") 0 "" [] (by decide)
  exact ⟨tl, ex, heq⟩

/-- C10: a `KeyboardInterrupt` during a question's `task` call is not caught
by the per-question handler — the turn produces no recovery message, the
loop ends `interrupted` — and the whole run still cleans up both agents
once, prints the graceful-interruption message, and exits with status 0. -/
theorem interrupt_in_task_cleanup_and_zero_status (env : Env)
    (taskOut : Nat → Outcome String) (k : Nat) (s : String) (rest : List ReadEv)
    (hline : stopLine s = false) (hintr : taskOut k = Outcome.intr)
    (h1 : env.importOk = true) (h2 : env.csvExists = true)
    (h3 : env.mkFileAgent = Outcome.ok ()) (h4 : env.mkPythonAgent = Outcome.ok ())
    (h5 : ∃ out, env.fileTaskOutcome = Outcome.ok out)
    (h6 : env.addContext1 = Outcome.ok ()) (h7 : env.addContext2 = Outcome.ok ())
    (h8 : (loop env.taskOut 0 env.reads).2 = LoopExit.interrupted) :
    loop taskOut k (ReadEv.line s :: rest)
      = (loopHeader ++ questionEvents (pyStrip s) Outcome.intr, LoopExit.interrupted)
  ∧ Ev.print "An error occurred while processing your request. Please try again."
      ∉ questionEvents (pyStrip s) Outcome.intr
  ∧ (program env).2 = Status.exited 0
  ∧ countEv isFileCleanup (program env).1 = 1
  ∧ countEv isPythonCleanup (program env).1 = 1
  ∧ Ev.print "\nApplication interrupted by user. Exiting gracefully." ∈ (program env).1 := by
  rcases env with ⟨imp, csv, mkF, mkP, ft, a1, a2, reads, tOut, fr, pr⟩
  simp only at h1 h2 h3 h4 h5 h6 h7 h8
  subst h1 h2 h3 h4 h6 h7
  rcases h5 with ⟨out, hft⟩
  subst hft
  refine ⟨by simp [loop, hline, hintr],
    by simp [questionEvents, recovery_ne_userQuestion], ?_, ?_, ?_, ?_⟩ <;>
    simp [program, mainRun, mainBody, tryBody, h8, loopExitRes, setupEvents,
      countEv_append, countEv_cons, countEv_nil,
      isFileCleanup, isPythonCleanup,
      loop_no_fileCleanup, loop_no_pythonCleanup,
      cleanupEvents_count_fileCleanup, cleanupEvents_count_pythonCleanup]

/-- Witness for C10 at a concrete environment. -/
theorem interrupt_in_task_witness : (program envTaskInterrupt).2 = Status.exited 0 := by
  have h := interrupt_in_task_cleanup_and_zero_status envTaskInterrupt
    (fun _ => Outcome.intr) 0 "q" [] (by decide) rfl rfl rfl rfl rfl
    ⟨"FILE_DESCRIPTION", rfl⟩ rfl rfl (by decide)
  exact h.2.2.1

end AgenticApp
